import Mathlib

/-!
Shallow embedding of the Session Manager in src/fundezy_trading_client.py
(class FundezyTradingClient) and proofs about its token-lifecycle and
request-retry behaviour.

Modelling conventions:
* Machine time (datetime.now()) is passed as a Nat number of seconds; the
  several now() calls inside one operation are modelled as one instant.
  timedelta(minutes=15) is 900, timedelta(minutes=1) is 60.  Python
  timedelta comparison on a possibly negative difference agrees with Nat
  truncated subtraction at the two comparisons the code makes.
* Network interaction is an oracle passed to each operation: an
  Except String r value, where the error case stands for a
  requests transport-level exception and the ok case carries the HTTP
  status, the parsed JSON body and the raw text of the response.
* Each operation returns an OpResult: the Python return value, the new
  object state, the list of network calls attempted, and the list of
  messages the code prints (prints are the only other observable effect).
* The threading lock is a no-op in this single-threaded model; the
  debounce check it guards is modelled faithfully.
-/

/-- JSON values, for trading-endpoint response bodies. -/
inductive Json where
  | null : Json
  | bool (b : Bool) : Json
  | num (n : Int) : Json
  | str (s : String) : Json
  | arr (xs : List Json) : Json
  | obj (kvs : List (String × Json)) : Json

/-- Whether a JSON value is a list (Python isinstance(x, list)). -/
def Json.isArr : Json → Bool
  | .arr _ => true
  | _ => false

/-- One element of the accounts array of the login response; the fields the
client reads from selectedAccount (tradingApiToken, tradingAccountId,
offer.system.uuid), each possibly absent. -/
structure Account where
  tradingApiToken : Option String
  tradingAccountId : Option String
  offerSystemUuid : Option String
deriving DecidableEq

/-- Parsed body of a login (mtr-login) response, per the fields the client
reads: token, accounts, selectedAccount. -/
structure LoginBody where
  token : Option String
  accounts : Option (List Account)
  selectedAccount : Option Account
deriving DecidableEq

/-- A login HTTP response: status code, parsed body, raw text. -/
structure LoginResp where
  status : Nat
  body : LoginBody
  text : String
deriving DecidableEq

/-- Parsed body of a refresh-token response: the optional new token. -/
structure RefreshBody where
  token : Option String
deriving DecidableEq

/-- A refresh HTTP response: status code, parsed body, raw text. -/
structure RefreshResp where
  status : Nat
  body : RefreshBody
  text : String
deriving DecidableEq

/-- A trading-endpoint HTTP response: status code, parsed body, raw text. -/
structure TradingResp where
  status : Nat
  body : Json
  text : String

/-- Network oracle for one login call: transport failure or a response. -/
def LNet : Type := Except String LoginResp

/-- Network oracle for one refresh call: transport failure or a response. -/
def RNet : Type := Except String RefreshResp

/-- The mutable state of FundezyTradingClient (the Session of the spec):
auth_token, trading_api_token, trading_account_id, system_uuid, accounts,
selected_account, token_expiry, last_refresh_time. -/
structure ClientState where
  auth_token : Option String
  trading_api_token : Option String
  trading_account_id : Option String
  system_uuid : Option String
  accounts : List Account
  selected_account : Option Account
  token_expiry : Option Nat
  last_refresh_time : Option Nat
deriving DecidableEq

/-- The state right after __init__: every session field None / empty. -/
def initState : ClientState :=
  ⟨none, none, none, none, [], none, none, none⟩

/-- Kinds of network calls the client makes. -/
inductive NetCall where
  | loginCall : NetCall
  | refreshCall : NetCall
  | tradingCall : NetCall
deriving DecidableEq

/-- Messages the client prints, keeping the data they carry. -/
inductive Msg where
  | loginOk : Msg
  | loginFailed (status : Nat) (text : String) : Msg
  | loginError (e : String) : Msg
  | noAuthFullLogin : Msg
  | refreshing : Msg
  | refreshOk : Msg
  | refresh401 : Msg
  | refreshFailedMsg (status : Nat) (text : String) : Msg
  | refreshError (e : String) : Msg
  | received401 (attempt : Nat) : Msg
  | getPositionsError : Msg
deriving DecidableEq

/-- Result of running one client operation: Python return value, new object
state, network calls attempted (in order), messages printed (in order). -/
structure OpResult (α : Type) where
  ret : α
  state : ClientState
  calls : List NetCall
  log : List Msg

/-- self.max_refresh_attempts, set to 3 in __init__ and never changed. -/
def max_refresh_attempts : Nat := 3

/-- login(): POST to the mtr-login endpoint.  On 200, reads token, accounts,
selectedAccount, copies tradingApiToken / tradingAccountId /
offer.system.uuid out of selectedAccount when it is present, sets
token_expiry to now + 15 minutes and last_refresh_time to now, returns True.
On any other status prints the status and body and returns False.  A
transport exception is caught, printed, and False is returned. -/
def login (s : ClientState) (now : Nat) (net : LNet) : OpResult Bool :=
  match net with
  | .error e => ⟨false, s, [.loginCall], [.loginError e]⟩
  | .ok r =>
    if r.status = 200 then
      let d := r.body
      let s1 : ClientState :=
        { s with auth_token := d.token,
                 accounts := d.accounts.getD [],
                 selected_account := d.selectedAccount }
      let s2 : ClientState :=
        match d.selectedAccount with
        | some acc =>
          { s1 with trading_api_token := acc.tradingApiToken,
                    trading_account_id := acc.tradingAccountId,
                    system_uuid := acc.offerSystemUuid }
        | none => s1
      let s3 : ClientState :=
        { s2 with token_expiry := some (now + 900),
                  last_refresh_time := some now }
      ⟨true, s3, [.loginCall], [.loginOk]⟩
    else
      ⟨false, s, [.loginCall], [.loginFailed r.status r.text]⟩

/-- The debounce test at the top of refresh_token: last_refresh_time is set
and now - last_refresh_time < 1 minute. -/
def recently_refreshed (s : ClientState) (now : Nat) : Bool :=
  match s.last_refresh_time with
  | some t => now - t < 60
  | none => false

/-- refresh_token(): returns True with no network call when refreshed under
a minute ago; delegates to login() when there is no auth token; otherwise
POSTs to the refresh endpoint.  On 200 the token is replaced when the body
carries one (kept otherwise), expiry is reset to now + 15 minutes and
last_refresh_time to now.  On 401, any other status, or a transport
exception, it falls back to login() and returns its result. -/
def refresh_token (s : ClientState) (now : Nat) (rnet : RNet) (lnet : LNet) :
    OpResult Bool :=
  if recently_refreshed s now then ⟨true, s, [], []⟩
  else
    match s.auth_token with
    | none =>
      let r := login s now lnet
      ⟨r.ret, r.state, r.calls, .noAuthFullLogin :: r.log⟩
    | some a =>
      match rnet with
      | .error e =>
        let r := login s now lnet
        ⟨r.ret, r.state, .refreshCall :: r.calls,
          .refreshing :: .refreshError e :: r.log⟩
      | .ok resp =>
        if resp.status = 200 then
          ⟨true,
            { s with auth_token := some (resp.body.token.getD a),
                     token_expiry := some (now + 900),
                     last_refresh_time := some now },
            [.refreshCall], [.refreshing, .refreshOk]⟩
        else if resp.status = 401 then
          let r := login s now lnet
          ⟨r.ret, r.state, .refreshCall :: r.calls,
            .refreshing :: .refresh401 :: r.log⟩
        else
          let r := login s now lnet
          ⟨r.ret, r.state, .refreshCall :: r.calls,
            .refreshing :: .refreshFailedMsg resp.status resp.text :: r.log⟩

/-- The expiry test of _ensure_valid_token: no auth token, no recorded
expiry, or now at or past expiry minus the 1-minute buffer. -/
def token_needs_renewal (s : ClientState) (now : Nat) : Bool :=
  s.auth_token.isNone || s.token_expiry.isNone ||
    (match s.token_expiry with
     | some e => decide (e - 60 ≤ now)
     | none => true)

/-- _ensure_valid_token(): when the token is missing or (nearly) expired,
refresh when an auth token exists, otherwise do a full login; else no-op. -/
def _ensure_valid_token (s : ClientState) (now : Nat) (rnet : RNet)
    (lnet : LNet) : OpResult Bool :=
  if token_needs_renewal s now then
    if s.auth_token.isSome then refresh_token s now rnet lnet
    else login s now lnet
  else ⟨true, s, [], []⟩

/-- Python string interpolation of a possibly-None token. -/
def pyStr : Option String → String
  | some v => v
  | none => "None"

/-- The headers _get_trading_headers builds: the Auth-trading-api value
(possibly None) and the co-auth cookie embedding the access token. -/
structure TradingHeaders where
  auth_trading_api : Option String
  cookie : String
deriving DecidableEq

/-- _get_trading_headers(): runs _ensure_valid_token, raises (error) when it
reports failure, and otherwise builds the headers from the current state. -/
def _get_trading_headers (s : ClientState) (now : Nat) (rnet : RNet)
    (lnet : LNet) : OpResult (Except String TradingHeaders) :=
  let r := _ensure_valid_token s now rnet lnet
  if r.ret then
    ⟨.ok ⟨r.state.trading_api_token, "co-auth=" ++ pyStr r.state.auth_token⟩,
      r.state, r.calls, r.log⟩
  else
    ⟨.error "Failed to authenticate or refresh token", r.state, r.calls, r.log⟩

/-- Network oracle for one _make_trading_request call, indexed by the retry
depth: the trading-endpoint response for each attempt, and the refresh/login
oracles consumed by _get_trading_headers (ens) and by the 401 retry path. -/
structure ReqEnv where
  trading : Nat → Except String TradingResp
  ensR : Nat → RNet
  ensL : Nat → LNet
  retryR : Nat → RNet
  retryL : Nat → LNet

/-- The exceptions _make_trading_request can raise. -/
inductive ReqError where
  | noUuid : ReqError
  | authError : ReqError
  | refreshFailed : ReqError
  | apiError (status : Nat) (text : String) : ReqError
  | networkError (e : String) : ReqError

/-- _make_trading_request(): raises when system_uuid is absent, builds
headers (which may refresh or log in), performs the call; 200/201 returns
the parsed body; 401 with retry_count below the cap refreshes and recurses,
raising when the refresh reports failure; any other status raises a trading
API error; a transport exception raises a network error. -/
def _make_trading_request (env : ReqEnv) (method endpoint : String)
    (s : ClientState) (now : Nat) (retry_count : Nat) :
    OpResult (Except ReqError Json) :=
  if s.system_uuid.isNone then ⟨.error .noUuid, s, [], []⟩
  else
    let h := _get_trading_headers s now (env.ensR retry_count)
      (env.ensL retry_count)
    match h.ret with
    | .error _ => ⟨.error .authError, h.state, h.calls, h.log⟩
    | .ok _ =>
      match env.trading retry_count with
      | .error e =>
        ⟨.error (.networkError e), h.state, h.calls ++ [.tradingCall], h.log⟩
      | .ok resp =>
        if resp.status = 200 ∨ resp.status = 201 then
          ⟨.ok resp.body, h.state, h.calls ++ [.tradingCall], h.log⟩
        else if resp.status = 401 then
          if hrc : retry_count < max_refresh_attempts then
            let r := refresh_token h.state now (env.retryR retry_count)
              (env.retryL retry_count)
            if r.ret then
              let rest := _make_trading_request env method endpoint r.state
                now (retry_count + 1)
              ⟨rest.ret, rest.state,
                h.calls ++ [.tradingCall] ++ r.calls ++ rest.calls,
                h.log ++ [.received401 retry_count] ++ r.log ++ rest.log⟩
            else
              ⟨.error .refreshFailed, r.state,
                h.calls ++ [.tradingCall] ++ r.calls,
                h.log ++ [.received401 retry_count] ++ r.log⟩
          else
            ⟨.error (.apiError resp.status resp.text), h.state,
              h.calls ++ [.tradingCall], h.log⟩
        else
          ⟨.error (.apiError resp.status resp.text), h.state,
            h.calls ++ [.tradingCall], h.log⟩
termination_by max_refresh_attempts + 1 - retry_count
decreasing_by omega

/-- get_open_positions(): GET /open-positions through
_make_trading_request; returns the positions entry when the response is a
dict containing one, the response itself when it is a list, and the empty
list on any other shape; any raised error is caught, printed, and the empty
list returned. -/
def get_open_positions (env : ReqEnv) (s : ClientState) (now : Nat) :
    OpResult Json :=
  let q := _make_trading_request env "GET" "/open-positions" s now 0
  match q.ret with
  | .error _ => ⟨Json.arr [], q.state, q.calls, q.log ++ [.getPositionsError]⟩
  | .ok resp =>
    match resp with
    | .obj kvs =>
      match kvs.lookup "positions" with
      | some v => ⟨v, q.state, q.calls, q.log⟩
      | none => ⟨Json.arr [], q.state, q.calls, q.log⟩
    | .arr xs => ⟨Json.arr xs, q.state, q.calls, q.log⟩
    | _ => ⟨Json.arr [], q.state, q.calls, q.log⟩

/-- One Session Manager operation together with the clock value and the
network oracles it consumes. -/
inductive Op where
  | auth (now : Nat) (lnet : LNet) : Op
  | refr (now : Nat) (rnet : RNet) (lnet : LNet) : Op
  | ensure (now : Nat) (rnet : RNet) (lnet : LNet) : Op
  | request (now : Nat) (env : ReqEnv) (method endpoint : String) : Op

/-- The state transition of one operation. -/
def stepOp (s : ClientState) : Op → ClientState
  | .auth now lnet => (login s now lnet).state
  | .refr now rnet lnet => (refresh_token s now rnet lnet).state
  | .ensure now rnet lnet => (_ensure_valid_token s now rnet lnet).state
  | .request now env m ep => (_make_trading_request env m ep s now 0).state

/-- Run a sequence of operations from a state. -/
def runOps (s : ClientState) (ops : List Op) : ClientState :=
  ops.foldl stepOp s

/-- The Session is absent: no credential field was ever populated. -/
def sessionAbsent (s : ClientState) : Bool :=
  s.auth_token.isNone && s.trading_api_token.isNone && s.system_uuid.isNone

/-- The Session is fully populated: access token, trading token and routing
id are all present. -/
def sessionFull (s : ClientState) : Bool :=
  s.auth_token.isSome && s.trading_api_token.isSome && s.system_uuid.isSome

/-- The invariant of the spec: the Session is absent or fully populated. -/
def sessionOK (s : ClientState) : Prop :=
  sessionAbsent s = true ∨ sessionFull s = true

/-- A login body is well formed per the documented login interface: it
carries a token and a selectedAccount holding a trading token and a
system uuid. -/
def bodyWF (b : LoginBody) : Bool :=
  b.token.isSome &&
    (match b.selectedAccount with
     | some acc => acc.tradingApiToken.isSome && acc.offerSystemUuid.isSome
     | none => false)

/-- A login oracle is well formed when any 200 response it may deliver has a
well-formed body. -/
def lnetWF (net : LNet) : Prop :=
  ∀ r, net = Except.ok r → r.status = 200 → bodyWF r.body = true

/-- All login oracles reachable from a request environment are well formed. -/
def reqEnvWF (env : ReqEnv) : Prop :=
  ∀ i, lnetWF (env.ensL i) ∧ lnetWF (env.retryL i)

/-- All login oracles an operation consumes are well formed. -/
def opWF : Op → Prop
  | .auth _ lnet => lnetWF lnet
  | .refr _ _ lnet => lnetWF lnet
  | .ensure _ _ lnet => lnetWF lnet
  | .request _ env _ _ => reqEnvWF env

/-- Run _ensure_valid_token over a list of (time, oracles) items,
accumulating the state and the network calls made. -/
def runEnsureSeq (s : ClientState) (items : List (Nat × RNet × LNet)) :
    ClientState × List NetCall :=
  items.foldl
    (fun p it =>
      let r := _ensure_valid_token p.1 it.1 it.2.1 it.2.2
      (r.state, p.2 ++ r.calls))
    (s, [])

/-- Run _get_trading_headers over a list of (time, oracles) items,
accumulating the state, the network calls made and the returned values. -/
def runHeadersSeq (s : ClientState) (items : List (Nat × RNet × LNet)) :
    ClientState × List NetCall × List (Except String TradingHeaders) :=
  items.foldl
    (fun p it =>
      let r := _get_trading_headers p.1 it.1 it.2.1 it.2.2
      (r.state, p.2.1 ++ r.calls, p.2.2 ++ [r.ret]))
    (s, [], [])

/- Helper: refresh_token short-circuits inside the debounce window. -/
theorem refresh_token_debounce (s : ClientState) (t now : Nat)
    (rnet : RNet) (lnet : LNet)
    (hl : s.last_refresh_time = some t) (hw : now - t < 60) :
    refresh_token s now rnet lnet = ⟨true, s, [], []⟩ := by
  unfold refresh_token
  simp [recently_refreshed, hl, hw]

/- Helper: _ensure_valid_token is a no-op (success, no call, no state
change) whenever an auth token exists and the clock is inside the debounce
window of the last refresh. -/
theorem ensure_noop_in_window (s : ClientState) (a : String) (t now : Nat)
    (rnet : RNet) (lnet : LNet)
    (ha : s.auth_token = some a) (hl : s.last_refresh_time = some t)
    (hw : now - t < 60) :
    _ensure_valid_token s now rnet lnet = ⟨true, s, [], []⟩ := by
  unfold _ensure_valid_token
  by_cases h : token_needs_renewal s now = true
  · simp [h, ha, refresh_token_debounce s t now rnet lnet hl hw]
  · simp [h]

/- Helper: folding _ensure_valid_token over in-window items moves neither
the state nor the accumulated call list. -/
theorem ensureSeq_aux (a : String) (t : Nat) :
    ∀ (items : List (Nat × RNet × LNet)) (s : ClientState)
      (acc : List NetCall),
      s.auth_token = some a → s.last_refresh_time = some t →
      (∀ it ∈ items, it.1 - t < 60) →
      items.foldl
        (fun p it =>
          let r := _ensure_valid_token p.1 it.1 it.2.1 it.2.2
          (r.state, p.2 ++ r.calls)) (s, acc) = (s, acc)
  | [], _, _, _, _, _ => rfl
  | it :: rest, s, acc, ha, hl, hit => by
    have h1 := ensure_noop_in_window s a t it.1 it.2.1 it.2.2 ha hl
      (hit it (by simp))
    have h2 := ensureSeq_aux a t rest s (acc ++ []) ha hl
      (fun x hx => hit x (by simp [hx]))
    simpa [List.foldl_cons, h1] using h2

/-- C2: a refresh_token call made under a minute after the last recorded
refresh returns success with no network call and no state change; hence a
sequence of _ensure_valid_token calls all made under a minute after a
successful refresh leaves the state unchanged, makes no network call at
all, and in particular at most one network refresh call. -/
theorem refresh_debounce_C2 (s : ClientState) (a : String) (t now : Nat)
    (rnet : RNet) (lnet : LNet) (items : List (Nat × RNet × LNet))
    (ha : s.auth_token = some a)
    (hl : s.last_refresh_time = some t)
    (hw : now - t < 60)
    (hitems : ∀ it ∈ items, it.1 - t < 60) :
    refresh_token s now rnet lnet = ⟨true, s, [], []⟩ ∧
    runEnsureSeq s items = (s, []) ∧
    (runEnsureSeq s items).2.count NetCall.refreshCall ≤ 1 := by
  have hseq : runEnsureSeq s items = (s, []) :=
    ensureSeq_aux a t items s [] ha hl hitems
  refine ⟨refresh_token_debounce s t now rnet lnet hl hw, hseq, ?_⟩
  rw [hseq]
  simp

/-- Witness for C2 at a concrete state, clock and call sequence. -/
theorem refresh_debounce_C2_witness :
    refresh_token
      ⟨some "A", some "K", some "AC", some "U", [], none, some 1000, some 900⟩
      905 (Except.error "down") (Except.error "down") =
      ⟨true,
        ⟨some "A", some "K", some "AC", some "U", [], none, some 1000,
          some 900⟩, [], []⟩ ∧
    runEnsureSeq
      ⟨some "A", some "K", some "AC", some "U", [], none, some 1000, some 900⟩
      [(910, Except.error "down", Except.error "down"),
       (950, Except.error "down", Except.error "down")] =
      (⟨some "A", some "K", some "AC", some "U", [], none, some 1000,
        some 900⟩, []) ∧
    (runEnsureSeq
      ⟨some "A", some "K", some "AC", some "U", [], none, some 1000, some 900⟩
      [(910, Except.error "down", Except.error "down"),
       (950, Except.error "down", Except.error "down")]).2.count
        NetCall.refreshCall ≤ 1 :=
  refresh_debounce_C2 _ "A" 900 905 _ _ _ rfl rfl (by decide)
    (by intro it hit; fin_cases hit <;> decide)

/-- C3: a refresh_token call that reaches the network and gets HTTP 200
returns success, replaces the access token by the one in the body when
present and keeps the old one otherwise, resets expiry to now + 15 minutes
and last_refresh_time to now, changes no other Session field, and makes
exactly one (refresh) network call. -/
theorem refresh_200_C3 (s : ClientState) (a : String) (now : Nat)
    (b : RefreshBody) (txt : String) (lnet : LNet)
    (ha : s.auth_token = some a)
    (hns : recently_refreshed s now = false) :
    refresh_token s now (Except.ok ⟨200, b, txt⟩) lnet =
      ⟨true,
        { s with auth_token := some (b.token.getD a),
                 token_expiry := some (now + 900),
                 last_refresh_time := some now },
        [NetCall.refreshCall], [Msg.refreshing, Msg.refreshOk]⟩ := by
  unfold refresh_token
  simp [hns, ha]

/-- Witness for C3 at a concrete state and response carrying a new token. -/
theorem refresh_200_C3_witness :
    refresh_token
      ⟨some "A", some "K", some "AC", some "U", [], none, some 1000, some 0⟩
      500 (Except.ok ⟨200, ⟨some "B"⟩, "ok"⟩) (Except.error "down") =
      ⟨true,
        ⟨some "B", some "K", some "AC", some "U", [], none, some 1400,
          some 500⟩, [NetCall.refreshCall],
        [Msg.refreshing, Msg.refreshOk]⟩ :=
  refresh_200_C3 _ "A" 500 ⟨some "B"⟩ "ok" _ rfl (by decide)

/-- C4: a refresh_token call that does not short-circuit and whose network
interaction yields 401, any other non-200 status, or a transport failure,
falls back to login() and returns its result and state, so the refresh
failure reaches the caller exactly when that login itself fails. -/
theorem refresh_fallback_C4 (s : ClientState) (a : String) (now : Nat)
    (rnet : RNet) (lnet : LNet)
    (ha : s.auth_token = some a)
    (hns : recently_refreshed s now = false)
    (hfail : (∃ e, rnet = Except.error e) ∨
      (∃ resp, rnet = Except.ok resp ∧ resp.status ≠ 200)) :
    (refresh_token s now rnet lnet).ret = (login s now lnet).ret ∧
    (refresh_token s now rnet lnet).state = (login s now lnet).state ∧
    (refresh_token s now rnet lnet).calls =
      NetCall.refreshCall :: (login s now lnet).calls ∧
    ((refresh_token s now rnet lnet).ret = false ↔
      (login s now lnet).ret = false) := by
  rcases hfail with ⟨e, he⟩ | ⟨resp, hr, hst⟩
  · subst he
    unfold refresh_token
    simp [hns, ha]
  · subst hr
    unfold refresh_token
    by_cases h401 : resp.status = 401
    · simp [hns, ha, hst, h401]
    · simp [hns, ha, hst, h401]

/-- Witness for C4 at a concrete state and a 500 refresh response, with the
fallback login failing on a 403. -/
theorem refresh_fallback_C4_witness :
    (refresh_token
      ⟨some "A", some "K", some "AC", some "U", [], none, some 1000, some 0⟩
      500 (Except.ok ⟨500, ⟨none⟩, "boom"⟩)
      (Except.ok ⟨403, ⟨none, none, none⟩, "denied"⟩)).ret =
      (login
        ⟨some "A", some "K", some "AC", some "U", [], none, some 1000, some 0⟩
        500 (Except.ok ⟨403, ⟨none, none, none⟩, "denied"⟩)).ret ∧
    (refresh_token
      ⟨some "A", some "K", some "AC", some "U", [], none, some 1000, some 0⟩
      500 (Except.ok ⟨500, ⟨none⟩, "boom"⟩)
      (Except.ok ⟨403, ⟨none, none, none⟩, "denied"⟩)).state =
      (login
        ⟨some "A", some "K", some "AC", some "U", [], none, some 1000, some 0⟩
        500 (Except.ok ⟨403, ⟨none, none, none⟩, "denied"⟩)).state ∧
    (refresh_token
      ⟨some "A", some "K", some "AC", some "U", [], none, some 1000, some 0⟩
      500 (Except.ok ⟨500, ⟨none⟩, "boom"⟩)
      (Except.ok ⟨403, ⟨none, none, none⟩, "denied"⟩)).calls =
      NetCall.refreshCall ::
        (login
          ⟨some "A", some "K", some "AC", some "U", [], none, some 1000,
            some 0⟩
          500 (Except.ok ⟨403, ⟨none, none, none⟩, "denied"⟩)).calls ∧
    ((refresh_token
      ⟨some "A", some "K", some "AC", some "U", [], none, some 1000, some 0⟩
      500 (Except.ok ⟨500, ⟨none⟩, "boom"⟩)
      (Except.ok ⟨403, ⟨none, none, none⟩, "denied"⟩)).ret = false ↔
      (login
        ⟨some "A", some "K", some "AC", some "U", [], none, some 1000, some 0⟩
        500 (Except.ok ⟨403, ⟨none, none, none⟩, "denied"⟩)).ret = false) :=
  refresh_fallback_C4 _ "A" 500 _ _ rfl (by decide)
    (Or.inr ⟨⟨500, ⟨none⟩, "boom"⟩, rfl, by decide⟩)

/-- C8: a login call whose response has a non-200 status returns failure
carrying the status code and the body text in its printed output, and
changes no Session field, so a previously absent Session stays absent. -/
theorem login_non200_C8 (s : ClientState) (now : Nat) (r : LoginResp)
    (hst : r.status ≠ 200) :
    login s now (Except.ok r) =
      ⟨false, s, [NetCall.loginCall], [Msg.loginFailed r.status r.text]⟩ := by
  unfold login
  simp [hst]

/-- Witness for C8 at the initial (absent) state and a 401 login response. -/
theorem login_non200_C8_witness :
    login initState 0 (Except.ok ⟨401, ⟨none, none, none⟩, "bad creds"⟩) =
      ⟨false, initState, [NetCall.loginCall],
        [Msg.loginFailed 401 "bad creds"]⟩ :=
  login_non200_C8 initState 0 ⟨401, ⟨none, none, none⟩, "bad creds"⟩
    (by decide)

/- Helper: with an auth token and an expiry more than a minute away,
_get_trading_headers succeeds with no network call and no state change. -/
theorem headers_ok_when_valid (s : ClientState) (a : String) (e now : Nat)
    (rnet : RNet) (lnet : LNet)
    (ha : s.auth_token = some a) (he : s.token_expiry = some e)
    (hv : now < e - 60) :
    _get_trading_headers s now rnet lnet =
      ⟨.ok ⟨s.trading_api_token, "co-auth=" ++ a⟩, s, [], []⟩ := by
  unfold _get_trading_headers _ensure_valid_token
  have hren : token_needs_renewal s now = false := by
    simp [token_needs_renewal, ha, he]
    omega
  simp [hren, pyStr, ha]

/- Helper: at retry depth 3 (the cap) a 401 response is surfaced as a
trading API error after the single trading call of that attempt. -/
theorem req_401_at_cap (env : ReqEnv) (m ep : String) (s : ClientState)
    (a : String) (e now : Nat) (u : String) (b : Json) (txt : String)
    (hu : s.system_uuid = some u)
    (ha : s.auth_token = some a) (he : s.token_expiry = some e)
    (hv : now < e - 60)
    (ht : env.trading 3 = Except.ok ⟨401, b, txt⟩) :
    _make_trading_request env m ep s now 3 =
      ⟨.error (.apiError 401 txt), s, [NetCall.tradingCall], []⟩ := by
  unfold _make_trading_request
  rw [headers_ok_when_valid s a e now _ _ ha he hv]
  simp [hu, ht, max_refresh_attempts]

/- Helper: below the cap, a 401 response triggers a refresh (which
short-circuits inside the debounce window) and a recursive retry. -/
theorem req_401_step (env : ReqEnv) (m ep : String) (s : ClientState)
    (a : String) (e t now : Nat) (u : String) (b : Json) (txt : String)
    (rc : Nat)
    (hu : s.system_uuid = some u)
    (ha : s.auth_token = some a) (he : s.token_expiry = some e)
    (hv : now < e - 60)
    (hl : s.last_refresh_time = some t) (hw : now - t < 60)
    (hrc : rc < 3)
    (ht : env.trading rc = Except.ok ⟨401, b, txt⟩) :
    _make_trading_request env m ep s now rc =
      ⟨(_make_trading_request env m ep s now (rc + 1)).ret,
       (_make_trading_request env m ep s now (rc + 1)).state,
       NetCall.tradingCall :: (_make_trading_request env m ep s now (rc + 1)).calls,
       Msg.received401 rc :: (_make_trading_request env m ep s now (rc + 1)).log⟩ := by
  conv_lhs => rw [_make_trading_request.eq_def]
  rw [headers_ok_when_valid s a e now _ _ ha he hv]
  simp [hu, ht, max_refresh_attempts, hrc,
    refresh_token_debounce s t now (env.retryR rc) (env.retryL rc) hl hw]

/-- C1: a request() whose trading call returns 401 on the original attempt
and on every retry performs exactly cap + 1 = 4 trading network calls, each
401 triggering a refresh_token() invocation (printed as a retry attempt)
before the next attempt, and fails with the trading API error (RequestError)
carrying status 401; a 2xx on any attempt instead returns the parsed body
after that attempt alone. -/
theorem request_401_cap_C1 (env : ReqEnv) (m ep : String) (s : ClientState)
    (a u : String) (e t now : Nat) (bf : Nat → Json) (tf : Nat → String)
    (hu : s.system_uuid = some u)
    (ha : s.auth_token = some a) (he : s.token_expiry = some e)
    (hv : now < e - 60)
    (hl : s.last_refresh_time = some t) (hw : now - t < 60)
    (ht : ∀ i, i ≤ 3 → env.trading i = Except.ok ⟨401, bf i, tf i⟩) :
    _make_trading_request env m ep s now 0 =
      ⟨.error (.apiError 401 (tf 3)), s,
        [NetCall.tradingCall, NetCall.tradingCall, NetCall.tradingCall,
          NetCall.tradingCall],
        [Msg.received401 0, Msg.received401 1, Msg.received401 2]⟩ ∧
    (∀ (rc : Nat) (resp : TradingResp) (env2 : ReqEnv),
      env2.trading rc = Except.ok resp →
      resp.status = 200 ∨ resp.status = 201 →
      _make_trading_request env2 m ep s now rc =
        ⟨.ok resp.body, s, [NetCall.tradingCall], []⟩) := by
  constructor
  · have h3 := req_401_at_cap env m ep s a e now u (bf 3) (tf 3) hu ha he hv
      (ht 3 (by omega))
    have h2 := req_401_step env m ep s a e t now u (bf 2) (tf 2) 2 hu ha he hv
      hl hw (by omega) (ht 2 (by omega))
    have h1 := req_401_step env m ep s a e t now u (bf 1) (tf 1) 1 hu ha he hv
      hl hw (by omega) (ht 1 (by omega))
    have h0 := req_401_step env m ep s a e t now u (bf 0) (tf 0) 0 hu ha he hv
      hl hw (by omega) (ht 0 (by omega))
    rw [h0]
    rw [show (0 : Nat) + 1 = 1 from rfl] at *
    rw [h1]
    rw [show (1 : Nat) + 1 = 2 from rfl] at *
    rw [h2]
    rw [show (2 : Nat) + 1 = 3 from rfl] at *
    rw [h3]
  · intro rc resp env2 ht2 hok
    conv_lhs => rw [_make_trading_request.eq_def]
    rw [headers_ok_when_valid s a e now _ _ ha he hv]
    simp [hu, ht2, hok]

/-- C9: a request() whose trading call fails at transport level raises the
network error immediately: the call list ends at the single failed trading
call, so no refresh and no re-issue of the request happen after it. -/
theorem request_netfail_C9 (env : ReqEnv) (m ep : String) (s : ClientState)
    (a u : String) (e now : Nat) (msg : String)
    (hu : s.system_uuid = some u)
    (ha : s.auth_token = some a) (he : s.token_expiry = some e)
    (hv : now < e - 60)
    (ht : env.trading 0 = Except.error msg) :
    _make_trading_request env m ep s now 0 =
      ⟨.error (.networkError msg), s, [NetCall.tradingCall], []⟩ := by
  conv_lhs => rw [_make_trading_request.eq_def]
  rw [headers_ok_when_valid s a e now _ _ ha he hv]
  simp [hu, ht]

/- Helper: login preserves the absent-or-full Session invariant when any
200 response it may see has a well-formed body. -/
theorem login_preserves_sessionOK (s : ClientState) (now : Nat) (lnet : LNet)
    (hwf : lnetWF lnet) (hs : sessionOK s) :
    sessionOK (login s now lnet).state := by
  match lnet with
  | .error e => simpa [login] using hs
  | .ok r =>
    by_cases h200 : r.status = 200
    · have hb := hwf r rfl h200
      unfold login
      simp only [h200, if_true]
      rcases hsel : r.body.selectedAccount with _ | acc
      · rw [bodyWF, hsel] at hb; simp at hb
      · right
        rw [bodyWF, hsel] at hb
        simp only [Bool.and_eq_true] at hb
        simp [sessionFull, hsel, hb.1, hb.2.1, hb.2.2]
    · simpa [login, h200] using hs

/- Helper: refresh_token preserves the absent-or-full Session invariant. -/
theorem refresh_preserves_sessionOK (s : ClientState) (now : Nat)
    (rnet : RNet) (lnet : LNet) (hwf : lnetWF lnet) (hs : sessionOK s) :
    sessionOK (refresh_token s now rnet lnet).state := by
  unfold refresh_token
  by_cases hrec : recently_refreshed s now = true
  · simpa [hrec] using hs
  · simp only [hrec, if_false, Bool.false_eq_true]
    rcases ha : s.auth_token with _ | a
    · simpa using login_preserves_sessionOK s now lnet hwf hs
    · have hfull : sessionFull s = true := by
        rcases hs with habs | hful
        · rw [sessionAbsent] at habs; simp [ha] at habs
        · exact hful
      match rnet with
      | .error e => simpa using login_preserves_sessionOK s now lnet hwf hs
      | .ok resp =>
        by_cases h200 : resp.status = 200
        · simp only [h200, if_true]
          right
          rw [sessionFull] at hfull ⊢
          simp only [Bool.and_eq_true] at hfull ⊢
          simp_all
        · by_cases h401 : resp.status = 401 <;>
            simpa [h200, h401] using
              login_preserves_sessionOK s now lnet hwf hs

/- Helper: _ensure_valid_token preserves the Session invariant. -/
theorem ensure_preserves_sessionOK (s : ClientState) (now : Nat)
    (rnet : RNet) (lnet : LNet) (hwf : lnetWF lnet) (hs : sessionOK s) :
    sessionOK (_ensure_valid_token s now rnet lnet).state := by
  unfold _ensure_valid_token
  by_cases hren : token_needs_renewal s now = true
  · by_cases hat : s.auth_token.isSome = true
    · simpa [hren, hat] using refresh_preserves_sessionOK s now rnet lnet hwf hs
    · simpa [hren, hat] using login_preserves_sessionOK s now lnet hwf hs
  · simpa [hren] using hs

/- Helper: _get_trading_headers preserves the Session invariant. -/
theorem headers_preserves_sessionOK (s : ClientState) (now : Nat)
    (rnet : RNet) (lnet : LNet) (hwf : lnetWF lnet) (hs : sessionOK s) :
    sessionOK (_get_trading_headers s now rnet lnet).state := by
  have h := ensure_preserves_sessionOK s now rnet lnet hwf hs
  unfold _get_trading_headers
  by_cases hret : (_ensure_valid_token s now rnet lnet).ret = true
  · simpa [hret] using h
  · simpa [hret] using h

/- Helper for the request preservation proof: fuel-indexed induction. -/
/- Helper: _make_trading_request preserves the Session invariant;
induction on the remaining retry budget. -/
theorem req_preserves_aux (env : ReqEnv) (m ep : String)
    (hwf : reqEnvWF env) :
    ∀ (k rc : Nat) (s : ClientState) (now : Nat),
      max_refresh_attempts + 1 - rc ≤ k → sessionOK s →
      sessionOK (_make_trading_request env m ep s now rc).state := by
  intro k
  induction k with
  | zero =>
    intro rc s now hk hs
    have hrc : ¬ rc < max_refresh_attempts := by
      unfold max_refresh_attempts at *; omega
    rw [_make_trading_request.eq_def]
    by_cases huuid : s.system_uuid.isNone = true
    · simpa [huuid] using hs
    · simp only [huuid, Bool.false_eq_true, if_false]
      have hh := headers_preserves_sessionOK s now (env.ensR rc)
        (env.ensL rc) (hwf rc).1 hs
      rcases hret : (_get_trading_headers s now (env.ensR rc)
          (env.ensL rc)).ret with e | hdrs
      · simpa [hret] using hh
      · simp only [hret]
        rcases htr : env.trading rc with e | resp
        · simpa [htr] using hh
        · simp only [htr]
          by_cases h2xx : resp.status = 200 ∨ resp.status = 201
          · simpa [h2xx] using hh
          · by_cases h401 : resp.status = 401
            · simpa [h2xx, h401, hrc] using hh
            · simpa [h2xx, h401] using hh
  | succ k ih =>
    intro rc s now hk hs
    rw [_make_trading_request.eq_def]
    by_cases huuid : s.system_uuid.isNone = true
    · simpa [huuid] using hs
    · simp only [huuid, Bool.false_eq_true, if_false]
      have hh := headers_preserves_sessionOK s now (env.ensR rc)
        (env.ensL rc) (hwf rc).1 hs
      rcases hret : (_get_trading_headers s now (env.ensR rc)
          (env.ensL rc)).ret with e | hdrs
      · simpa [hret] using hh
      · simp only [hret]
        rcases htr : env.trading rc with e | resp
        · simpa [htr] using hh
        · simp only [htr]
          by_cases h2xx : resp.status = 200 ∨ resp.status = 201
          · simpa [h2xx] using hh
          · by_cases h401 : resp.status = 401
            · by_cases hrc : rc < max_refresh_attempts
              · have hr := refresh_preserves_sessionOK
                  (_get_trading_headers s now (env.ensR rc)
                    (env.ensL rc)).state now
                  (env.retryR rc) (env.retryL rc) (hwf rc).2 hh
                by_cases hret2 : (refresh_token
                    (_get_trading_headers s now (env.ensR rc)
                      (env.ensL rc)).state now
                    (env.retryR rc) (env.retryL rc)).ret = true
                · have hrec := ih (rc + 1)
                    (refresh_token
                      (_get_trading_headers s now (env.ensR rc)
                        (env.ensL rc)).state now
                      (env.retryR rc) (env.retryL rc)).state now
                    (by unfold max_refresh_attempts at *; omega) hr
                  simpa [h2xx, h401, hrc, hret2] using hrec
                · simpa [h2xx, h401, hrc, hret2] using hr
              · simpa [h2xx, h401, hrc] using hh
            · simpa [h2xx, h401] using hh

/- Helper: _make_trading_request preserves the Session invariant. -/
theorem req_preserves_sessionOK (env : ReqEnv) (m ep : String)
    (hwf : reqEnvWF env) (s : ClientState) (now rc : Nat)
    (hs : sessionOK s) :
    sessionOK (_make_trading_request env m ep s now rc).state :=
  req_preserves_aux env m ep hwf (max_refresh_attempts + 1 - rc) rc s now
    (Nat.le_refl _) hs

/- Helper: every single operation preserves the Session invariant. -/
theorem stepOp_preserves_sessionOK (s : ClientState) (op : Op)
    (hwf : opWF op) (hs : sessionOK s) : sessionOK (stepOp s op) := by
  cases op with
  | auth now lnet => exact login_preserves_sessionOK s now lnet hwf hs
  | refr now rnet lnet => exact refresh_preserves_sessionOK s now rnet lnet hwf hs
  | ensure now rnet lnet => exact ensure_preserves_sessionOK s now rnet lnet hwf hs
  | request now env m ep => exact req_preserves_sessionOK env m ep hwf s now 0 hs

/- Helper: every operation sequence preserves the Session invariant. -/
theorem runOps_preserves_sessionOK :
    ∀ (ops : List Op) (s : ClientState), (∀ op ∈ ops, opWF op) →
      sessionOK s → sessionOK (runOps s ops)
  | [], _, _, hs => hs
  | op :: rest, s, hwf, hs =>
    runOps_preserves_sessionOK rest (stepOp s op)
      (fun x hx => hwf x (by simp [hx]))
      (stepOp_preserves_sessionOK s op (hwf op (by simp)) hs)

/-- C5 (amended): when every HTTP-200 login response delivered during a
sequence of authenticate / refresh / ensure_valid / request operations has a
well-formed body (a token plus a selectedAccount carrying tradingApiToken
and offer.system.uuid), the Session invariant holds after the sequence: a
session that was absent or fully populated stays absent or fully populated;
and a successful authenticate() whose 200 body is well-formed returns True
and leaves access token, trading token and routing id all populated. -/
theorem session_invariant_C5 (s : ClientState) (ops : List Op)
    (hs : sessionOK s) (hwf : ∀ op ∈ ops, opWF op) :
    sessionOK (runOps s ops) ∧
    (∀ (now : Nat) (r : LoginResp), r.status = 200 → bodyWF r.body = true →
      (login s now (Except.ok r)).ret = true ∧
      sessionFull (login s now (Except.ok r)).state = true) := by
  refine ⟨runOps_preserves_sessionOK ops s hwf hs, ?_⟩
  intro now r h200 hb
  rcases hsel : r.body.selectedAccount with _ | acc
  · rw [bodyWF, hsel] at hb; simp at hb
  · rw [bodyWF, hsel] at hb
    simp only [Bool.and_eq_true] at hb
    constructor
    · unfold login; simp [h200]
    · unfold login
      simp only [h200, if_true]
      simp [sessionFull, hsel, hb.1, hb.2.1, hb.2.2]

/-- Witness for C5 at the initial state and one well-formed login. -/
theorem session_invariant_C5_witness :
    sessionOK (runOps initState
      [Op.auth 5 (Except.ok ⟨200,
        ⟨some "T", some [⟨some "K", some "AC", some "U"⟩],
          some ⟨some "K", some "AC", some "U"⟩⟩, "ok"⟩)]) ∧
    ((login initState 5 (Except.ok ⟨200,
        ⟨some "T", some [⟨some "K", some "AC", some "U"⟩],
          some ⟨some "K", some "AC", some "U"⟩⟩, "ok"⟩)).ret = true ∧
      sessionFull (login initState 5 (Except.ok ⟨200,
        ⟨some "T", some [⟨some "K", some "AC", some "U"⟩],
          some ⟨some "K", some "AC", some "U"⟩⟩, "ok"⟩)).state = true) := by
  have h := session_invariant_C5 initState
    [Op.auth 5 (Except.ok ⟨200,
      ⟨some "T", some [⟨some "K", some "AC", some "U"⟩],
        some ⟨some "K", some "AC", some "U"⟩⟩, "ok"⟩)]
    (Or.inl rfl)
    (by
      intro op hop
      simp only [List.mem_singleton] at hop
      subst hop
      intro r hr h200
      cases hr
      rfl)
  exact ⟨h.1, h.2 5 ⟨200,
    ⟨some "T", some [⟨some "K", some "AC", some "U"⟩],
      some ⟨some "K", some "AC", some "U"⟩⟩, "ok"⟩ rfl rfl⟩

/-- Counterexample to C5 as stated: a 200 login response whose body has a
token but no selectedAccount makes login() report success while leaving the
Session partially populated - neither absent nor full. -/
theorem session_invariant_C5_counterexample :
    (login initState 0
      (Except.ok ⟨200, ⟨some "T", none, none⟩, "ok"⟩)).ret = true ∧
    sessionAbsent (runOps initState
      [Op.auth 0 (Except.ok ⟨200, ⟨some "T", none, none⟩, "ok"⟩)]) = false ∧
    sessionFull (runOps initState
      [Op.auth 0 (Except.ok ⟨200, ⟨some "T", none, none⟩, "ok"⟩)]) = false ∧
    (runOps initState
      [Op.auth 0 (Except.ok ⟨200, ⟨some "T", none, none⟩, "ok"⟩)]).auth_token
        = some "T" ∧
    (runOps initState
      [Op.auth 0 (Except.ok ⟨200, ⟨some "T", none, none⟩, "ok"⟩)]).trading_api_token
        = none :=
  ⟨rfl, rfl, rfl, rfl, rfl⟩

/-- C6 (amended): a request() issued while the routing id (system_uuid) is
absent - in particular while the Session is absent - fails immediately with
the System-UUID-not-available error, making no network call and no
authentication attempt; the authenticate-via-ensure_valid path runs only
when the routing id is present. -/
theorem request_absent_C6 (env : ReqEnv) (m ep : String) (s : ClientState)
    (now rc : Nat) (hu : s.system_uuid = none) :
    _make_trading_request env m ep s now rc =
      ⟨.error .noUuid, s, [], []⟩ := by
  rw [_make_trading_request.eq_def]
  simp [hu]

/-- Witness for C6 (amended) at the initial, never-authenticated state. -/
theorem request_absent_C6_witness :
    _make_trading_request
      ⟨fun _ => Except.ok ⟨200, Json.null, "ok"⟩,
       fun _ => Except.error "x",
       fun _ => Except.ok ⟨200, ⟨some "T", none,
         some ⟨some "K", some "AC", some "U"⟩⟩, "ok"⟩,
       fun _ => Except.error "x",
       fun _ => Except.ok ⟨200, ⟨some "T", none,
         some ⟨some "K", some "AC", some "U"⟩⟩, "ok"⟩⟩
      "GET" "/balance" initState 0 0 =
      ⟨.error .noUuid, initState, [], []⟩ :=
  request_absent_C6 _ "GET" "/balance" initState 0 0 rfl

/-- Counterexample to C6 as stated: at the absent Session, even with a
network that would accept a login, request() makes zero network calls - so
no authenticate() attempt happens before the call is abandoned. -/
theorem request_absent_C6_counterexample :
    (_make_trading_request
      ⟨fun _ => Except.ok ⟨200, Json.null, "ok"⟩,
       fun _ => Except.error "x",
       fun _ => Except.ok ⟨200, ⟨some "T", none,
         some ⟨some "K", some "AC", some "U"⟩⟩, "ok"⟩,
       fun _ => Except.error "x",
       fun _ => Except.ok ⟨200, ⟨some "T", none,
         some ⟨some "K", some "AC", some "U"⟩⟩, "ok"⟩⟩
      "GET" "/balance" initState 0 0).calls = [] ∧
    (_make_trading_request
      ⟨fun _ => Except.ok ⟨200, Json.null, "ok"⟩,
       fun _ => Except.error "x",
       fun _ => Except.ok ⟨200, ⟨some "T", none,
         some ⟨some "K", some "AC", some "U"⟩⟩, "ok"⟩,
       fun _ => Except.error "x",
       fun _ => Except.ok ⟨200, ⟨some "T", none,
         some ⟨some "K", some "AC", some "U"⟩⟩, "ok"⟩⟩
      "GET" "/balance" initState 0 0).ret = .error .noUuid := by
  rw [_make_trading_request.eq_def]
  exact ⟨rfl, rfl⟩

/- Helper: folding _get_trading_headers over items whose times are before
the one-minute expiry buffer moves nothing and returns ok headers. -/
theorem headersSeq_aux (a : String) (e : Nat) :
    ∀ (items : List (Nat × RNet × LNet)) (s : ClientState)
      (acc : List NetCall) (outs : List (Except String TradingHeaders)),
      s.auth_token = some a → s.token_expiry = some e →
      (∀ it ∈ items, it.1 < e - 60) →
      items.foldl
        (fun p it =>
          let r := _get_trading_headers p.1 it.1 it.2.1 it.2.2
          (r.state, p.2.1 ++ r.calls, p.2.2 ++ [r.ret])) (s, acc, outs) =
        (s, acc, outs ++ items.map (fun _ =>
          Except.ok ⟨s.trading_api_token, "co-auth=" ++ a⟩))
  | [], _, _, _, _, _, _ => by simp
  | it :: rest, s, acc, outs, ha, he, hit => by
    have h1 := headers_ok_when_valid s a e it.1 it.2.1 it.2.2 ha he
      (hit it (by simp))
    have h2 := headersSeq_aux a e rest s (acc ++ []) (outs ++
      [Except.ok ⟨s.trading_api_token, "co-auth=" ++ a⟩]) ha he
      (fun x hx => hit x (by simp [hx]))
    simpa [List.foldl_cons, h1] using h2

/-- C7 (amended): after a successful authenticate(), every
_get_trading_headers call made strictly before one minute before the
recorded expiry succeeds, makes no network call, leaves the Session
unchanged, and returns the trading-API-token header and the co-auth cookie
derived from the current Session - and this holds for every such call in a
sequence, however many are made. -/
theorem headers_before_buffer_C7 (s : ClientState) (a : String) (e now : Nat)
    (rnet : RNet) (lnet : LNet) (items : List (Nat × RNet × LNet))
    (ha : s.auth_token = some a) (he : s.token_expiry = some e)
    (hv : now < e - 60)
    (hitems : ∀ it ∈ items, it.1 < e - 60) :
    _get_trading_headers s now rnet lnet =
      ⟨.ok ⟨s.trading_api_token, "co-auth=" ++ a⟩, s, [], []⟩ ∧
    runHeadersSeq s items =
      (s, [], items.map (fun _ =>
        Except.ok ⟨s.trading_api_token, "co-auth=" ++ a⟩)) := by
  refine ⟨headers_ok_when_valid s a e now rnet lnet ha he hv, ?_⟩
  simpa [runHeadersSeq] using headersSeq_aux a e items s [] [] ha he hitems

/-- Witness for C7 (amended) at a concrete state and two call times. -/
theorem headers_before_buffer_C7_witness :
    _get_trading_headers
      ⟨some "A", some "K", some "AC", some "U", [], none, some 1000, some 0⟩
      100 (Except.error "down") (Except.error "down") =
      ⟨.ok ⟨some "K", "co-auth=" ++ "A"⟩,
        ⟨some "A", some "K", some "AC", some "U", [], none, some 1000,
          some 0⟩, [], []⟩ ∧
    runHeadersSeq
      ⟨some "A", some "K", some "AC", some "U", [], none, some 1000, some 0⟩
      [(200, Except.error "down", Except.error "down"),
       (900, Except.error "down", Except.error "down")] =
      (⟨some "A", some "K", some "AC", some "U", [], none, some 1000, some 0⟩,
        [],
        [(200, (Except.error "down" : RNet), (Except.error "down" : LNet)),
         (900, Except.error "down", Except.error "down")].map (fun _ =>
          Except.ok ⟨some "K", "co-auth=" ++ "A"⟩)) :=
  headers_before_buffer_C7 _ "A" 1000 100 _ _ _ rfl rfl (by decide)
    (by intro it hit; fin_cases hit <;> decide)

/-- Counterexample to C7 as stated: at clock 850, before the recorded
expiry 900 but inside its one-minute buffer, a failing refresh whose login
fallback also fails makes _get_trading_headers raise, although the clock
has not passed expiry. -/
theorem headers_before_buffer_C7_counterexample :
    (850 : Nat) < 900 ∧
    (_get_trading_headers
      ⟨some "A", some "K", some "AC", some "U", [], none, some 900, some 0⟩
      850 (Except.error "timeout") (Except.error "down")).ret =
      .error "Failed to authenticate or refresh token" :=
  ⟨by decide, rfl⟩

/-- Witness for C1 at a concrete state, an all-401 network and a 200 one. -/
theorem request_401_cap_C1_witness :
    _make_trading_request
      ⟨fun _ => Except.ok ⟨401, Json.null, "unauthorized"⟩,
       fun _ => Except.error "x", fun _ => Except.error "x",
       fun _ => Except.error "x", fun _ => Except.error "x"⟩
      "GET" "/balance"
      ⟨some "A", some "K", some "AC", some "U", [], none, some 1000, some 900⟩
      905 0 =
      ⟨.error (.apiError 401 "unauthorized"),
        ⟨some "A", some "K", some "AC", some "U", [], none, some 1000,
          some 900⟩,
        [NetCall.tradingCall, NetCall.tradingCall, NetCall.tradingCall,
          NetCall.tradingCall],
        [Msg.received401 0, Msg.received401 1, Msg.received401 2]⟩ ∧
    _make_trading_request
      ⟨fun _ => Except.ok ⟨200, Json.str "balance", "ok"⟩,
       fun _ => Except.error "x", fun _ => Except.error "x",
       fun _ => Except.error "x", fun _ => Except.error "x"⟩
      "GET" "/balance"
      ⟨some "A", some "K", some "AC", some "U", [], none, some 1000, some 900⟩
      905 0 =
      ⟨.ok (Json.str "balance"),
        ⟨some "A", some "K", some "AC", some "U", [], none, some 1000,
          some 900⟩, [NetCall.tradingCall], []⟩ := by
  have h := request_401_cap_C1
    ⟨fun _ => Except.ok ⟨401, Json.null, "unauthorized"⟩,
     fun _ => Except.error "x", fun _ => Except.error "x",
     fun _ => Except.error "x", fun _ => Except.error "x"⟩
    "GET" "/balance"
    ⟨some "A", some "K", some "AC", some "U", [], none, some 1000, some 900⟩
    "A" "U" 1000 900 905 (fun _ => Json.null) (fun _ => "unauthorized")
    rfl rfl rfl (by decide) rfl (by decide) (fun i _ => rfl)
  exact ⟨h.1, h.2 0 ⟨200, Json.str "balance", "ok"⟩
    ⟨fun _ => Except.ok ⟨200, Json.str "balance", "ok"⟩,
     fun _ => Except.error "x", fun _ => Except.error "x",
     fun _ => Except.error "x", fun _ => Except.error "x"⟩
    rfl (Or.inl rfl)⟩

/-- Witness for C9 at a concrete state and a connection-reset failure. -/
theorem request_netfail_C9_witness :
    _make_trading_request
      ⟨fun _ => Except.error "connection reset",
       fun _ => Except.error "x", fun _ => Except.error "x",
       fun _ => Except.error "x", fun _ => Except.error "x"⟩
      "GET" "/balance"
      ⟨some "A", some "K", some "AC", some "U", [], none, some 1000, some 900⟩
      905 0 =
      ⟨.error (.networkError "connection reset"),
        ⟨some "A", some "K", some "AC", some "U", [], none, some 1000,
          some 900⟩, [NetCall.tradingCall], []⟩ :=
  request_netfail_C9 _ "GET" "/balance" _ "A" "U" 1000 905
    "connection reset" rfl rfl rfl (by decide) rfl

/-- C10 (amended): get_open_positions() never raises (it is total) and:
on any raised request error it returns the empty list; when the response is
a dict containing a positions key it returns the value stored there (a list
exactly when the server put one there); when the response is a list it
returns it; and for every other response shape it returns the empty list.
The session state it leaves is that of the underlying request. -/
theorem get_open_positions_C10 (env : ReqEnv) (s : ClientState) (now : Nat) :
    (get_open_positions env s now).state =
      (_make_trading_request env "GET" "/open-positions" s now 0).state ∧
    (∀ e, (_make_trading_request env "GET" "/open-positions" s now 0).ret =
        Except.error e →
      (get_open_positions env s now).ret = Json.arr []) ∧
    (∀ kvs v,
      (_make_trading_request env "GET" "/open-positions" s now 0).ret =
        Except.ok (Json.obj kvs) →
      kvs.lookup "positions" = some v →
      (get_open_positions env s now).ret = v) ∧
    (∀ kvs,
      (_make_trading_request env "GET" "/open-positions" s now 0).ret =
        Except.ok (Json.obj kvs) →
      kvs.lookup "positions" = none →
      (get_open_positions env s now).ret = Json.arr []) ∧
    (∀ xs,
      (_make_trading_request env "GET" "/open-positions" s now 0).ret =
        Except.ok (Json.arr xs) →
      (get_open_positions env s now).ret = Json.arr xs) ∧
    (∀ j,
      (_make_trading_request env "GET" "/open-positions" s now 0).ret =
        Except.ok j →
      j.isArr = false → (∀ kvs, j ≠ Json.obj kvs) →
      (get_open_positions env s now).ret = Json.arr []) := by
  refine ⟨?_, ?_, ?_, ?_, ?_, ?_⟩
  · unfold get_open_positions
    rcases hq : (_make_trading_request env "GET" "/open-positions" s
        now 0).ret with e | j
    · simp [hq]
    · cases j <;> simp only [hq]
      case obj kvs =>
        rcases hl : kvs.lookup "positions" with _ | v <;> simp [hl]
  · intro e he
    unfold get_open_positions
    simp [he]
  · intro kvs v hq hl
    unfold get_open_positions
    simp [hq, hl]
  · intro kvs hq hl
    unfold get_open_positions
    simp [hq, hl]
  · intro xs hq
    unfold get_open_positions
    simp [hq]
  · intro j hq hisarr hobj
    unfold get_open_positions
    cases j with
    | obj kvs => exact absurd rfl (hobj kvs)
    | arr xs => simp [Json.isArr] at hisarr
    | null => simp [hq]
    | bool b => simp [hq]
    | num n => simp [hq]
    | str v => simp [hq]

/-- Counterexample to C10 as stated: a 200 response whose positions key
holds the number 5 makes get_open_positions() return 5, not a list. -/
theorem get_open_positions_C10_counterexample :
    (get_open_positions
      ⟨fun _ => Except.ok ⟨200, Json.obj [("positions", Json.num 5)], "ok"⟩,
       fun _ => Except.error "x", fun _ => Except.error "x",
       fun _ => Except.error "x", fun _ => Except.error "x"⟩
      ⟨some "A", some "K", some "AC", some "U", [], none, some 1000, some 900⟩
      905).ret = Json.num 5 ∧
    (Json.num 5).isArr = false := by
  unfold get_open_positions
  rw [_make_trading_request.eq_def]
  exact ⟨rfl, rfl⟩

/-- Witness for C10 (amended): a positions key holding a list is returned. -/
theorem get_open_positions_C10_witness :
    (get_open_positions
      ⟨fun _ => Except.ok
        ⟨200, Json.obj [("positions", Json.arr [Json.str "p1"])], "ok"⟩,
       fun _ => Except.error "x", fun _ => Except.error "x",
       fun _ => Except.error "x", fun _ => Except.error "x"⟩
      ⟨some "A", some "K", some "AC", some "U", [], none, some 1000, some 900⟩
      905).ret = Json.arr [Json.str "p1"] :=
  (get_open_positions_C10
    ⟨fun _ => Except.ok
      ⟨200, Json.obj [("positions", Json.arr [Json.str "p1"])], "ok"⟩,
     fun _ => Except.error "x", fun _ => Except.error "x",
     fun _ => Except.error "x", fun _ => Except.error "x"⟩
    ⟨some "A", some "K", some "AC", some "U", [], none, some 1000, some 900⟩
    905).2.2.1 [("positions", Json.arr [Json.str "p1"])]
    (Json.arr [Json.str "p1"])
    (by rw [_make_trading_request.eq_def]; rfl) rfl
